import Mathlib

/-!
Shallow embedding of the `typechecker` Python package
(`typechecker/checkers.py` and `typechecker/exceptions.py`).

The embedding models:
  - runtime Python values (`Value`) together with their runtime class and
    the `isinstance` test (including the `bool <: int` subclass relation);
  - type descriptions as they appear in annotations (`DescObj`: plain
    classes, `typing` generic aliases with their argument descriptions,
    variadic aliases, the `typing.Any` / `typing.NoReturn` / `None`
    markers), each carrying a Python object id so that object identity
    and `==`-equality can be distinguished;
  - the checker classes `TypeChecker`, `TupleTypeChecker`,
    `ListTypeChecker`, `DictTypeChecker`, `SetTypeChecker`,
    `EmptyTypeChecker` and their `__call__` methods (`runChecker`);
  - the error chaining helper `do_type_check` and the exception classes
    of `exceptions.py`;
  - the memoizing registry `get_type_checker` with its module-level
    dict cache (keyed by Python `==`/`hash`, i.e. structural equality of
    `typing` aliases);
  - `FuncCallTypeChecker.__init__` and `FuncCallTypeChecker.__call__`.
-/

/-- Exception classes used by the program.  `exceptions.py` declares
`class TypeCheckError(TypeError)` and `class TypeCheckWarning(RuntimeWarning)`;
`TypeError`, `RuntimeWarning` and `KeyError` are Python built-ins deriving
from `Exception`. -/
inductive ExcClass where
  | exceptionBase
  | typeError
  | typeCheckError
  | runtimeWarning
  | typeCheckWarning
  | keyError
deriving DecidableEq, Repr

/-- The linearized ancestor chain (method resolution order, restricted to the
classes modelled here) of each exception class.  A class is an ancestor of
itself. -/
def ExcClass.ancestors : ExcClass → List ExcClass
  | .exceptionBase => [.exceptionBase]
  | .typeError => [.typeError, .exceptionBase]
  | .typeCheckError => [.typeCheckError, .typeError, .exceptionBase]
  | .runtimeWarning => [.runtimeWarning, .exceptionBase]
  | .typeCheckWarning => [.typeCheckWarning, .runtimeWarning, .exceptionBase]
  | .keyError => [.keyError, .exceptionBase]

/-- Python `issubclass`: a class is a subclass of itself and of each of its
ancestors. -/
def ExcClass.isSubclassOf (c d : ExcClass) : Bool :=
  c.ancestors.contains d

/-- A raised Python exception: its class, its message, and its `__cause__`
(set by `raise ... from err`). -/
inductive PyError where
  | mk (cls : ExcClass) (msg : String) (cause : Option PyError)
deriving Repr

def PyError.cls : PyError → ExcClass
  | .mk c _ _ => c

def PyError.msg : PyError → String
  | .mk _ m _ => m

def PyError.cause : PyError → Option PyError
  | .mk _ _ c => c

/-- The innermost message of an exception chain: follow `__cause__` links to
the end.  By the source, this leaf is the concrete mismatch report produced
by `TypeChecker.raise_error`. -/
def PyError.leafMsg : PyError → String
  | .mk _ m none => m
  | .mk _ _ (some e) => e.leafMsg

/-- A Python `except H:` clause catches exception `e` iff `e`'s class is `H`
or a subclass of `H`. -/
def pyExcCaught (e : PyError) (handler : ExcClass) : Bool :=
  e.cls.isSubclassOf handler

/-- Whether the first character list starts with the second. -/
def listStartsWith : List Char → List Char → Bool
  | _, [] => true
  | [], _ :: _ => false
  | a :: as, b :: bs => a == b && listStartsWith as bs

/-- Whether the second character list occurs inside the first. -/
def listHasSub : List Char → List Char → Bool
  | [], pat => listStartsWith [] pat
  | a :: rest, pat => listStartsWith (a :: rest) pat || listHasSub rest pat

/-- Whether a string mentions another as a substring (used to state what an
error message names). -/
def strMentions (s sub : String) : Bool :=
  listHasSub s.data sub.data

/-- Runtime Python values, as far as the checkers inspect them. -/
inductive Value where
  | intV (n : Int)
  | boolV (b : Bool)
  | strV (s : String)
  | noneV
  | tupleV (elems : List Value)
  | listV (elems : List Value)
  | dictV (items : List (Value × Value))
  | setV (elems : List Value)
deriving Repr

/-- The name of the runtime class of a value (`obj.__class__`). -/
def Value.classOf : Value → String
  | .intV _ => "int"
  | .boolV _ => "bool"
  | .strV _ => "str"
  | .noneV => "NoneType"
  | .tupleV _ => "tuple"
  | .listV _ => "list"
  | .dictV _ => "dict"
  | .setV _ => "set"

/-- The linearized ancestor chain of each builtin runtime class; in Python,
`bool` is a subclass of `int` and every class derives from `object`. -/
def pyMro : String → List String
  | "bool" => ["bool", "int", "object"]
  | c => [c, "object"]

/-- Python `isinstance(v, C)` for a class named `C`: the runtime class of `v`
is `C` or a subclass of `C`. -/
def pyIsInstanceCls (v : Value) (clsName : String) : Bool :=
  (pyMro v.classOf).contains clsName

mutual
/-- Python `repr` of a value, as interpolated into checker error messages. -/
def Value.pyRepr : Value → String
  | .intV n => toString n
  | .boolV b => if b then "True" else "False"
  | .strV s => "\x27" ++ s ++ "\x27"
  | .noneV => "None"
  | .tupleV [e] => "(" ++ e.pyRepr ++ ",)"
  | .tupleV es => "(" ++ reprJoin es ++ ")"
  | .listV es => "[" ++ reprJoin es ++ "]"
  | .dictV ps => "\x7b" ++ reprJoinPairs ps ++ "\x7d"
  | .setV [] => "set()"
  | .setV es => "\x7b" ++ reprJoin es ++ "\x7d"

def reprJoin : List Value → String
  | [] => ""
  | [e] => e.pyRepr
  | e :: es => e.pyRepr ++ ", " ++ reprJoin es

def reprJoinPairs : List (Value × Value) → String
  | [] => ""
  | [(k, v)] => k.pyRepr ++ ": " ++ v.pyRepr
  | (k, v) :: ps => k.pyRepr ++ ": " ++ v.pyRepr ++ ", " ++ reprJoinPairs ps
end

/-- The identity-erased content of a type description: what Python `==` and
`hash` compare on classes and `typing` aliases.  `typing` generic aliases
compare structurally (`typing.List[int] == typing.List[int]` holds for two
distinct alias objects); a plain class is denoted by its name. -/
inductive Shape where
  | cls (name : String)
  | tupleAlias (args : List Shape)
  | listAlias (arg : Shape)
  | dictAlias (key val : Shape)
  | setAlias (arg : Shape)
  | variadicAlias (origin : String)
  | anyMarker
  | noReturnMarker
  | noneVal
deriving Repr

mutual
/-- Python `==` on type descriptions: structural comparison (classes by
identity, which the model renders as name equality; `typing` aliases
compare componentwise). -/
def Shape.beq : Shape → Shape → Bool
  | .cls a, .cls b => a == b
  | .tupleAlias as, .tupleAlias bs => Shape.beqList as bs
  | .listAlias a, .listAlias b => Shape.beq a b
  | .dictAlias k1 v1, .dictAlias k2 v2 => Shape.beq k1 k2 && Shape.beq v1 v2
  | .setAlias a, .setAlias b => Shape.beq a b
  | .variadicAlias a, .variadicAlias b => a == b
  | .anyMarker, .anyMarker => true
  | .noReturnMarker, .noReturnMarker => true
  | .noneVal, .noneVal => true
  | _, _ => false

def Shape.beqList : List Shape → List Shape → Bool
  | [], [] => true
  | a :: as, b :: bs => Shape.beq a b && Shape.beqList as bs
  | _, _ => false
end


mutual
/-- How a type renders inside the brackets of a `typing` alias repr (classes
appear by bare name there). -/
def Shape.argRepr : Shape → String
  | .cls n => n
  | .tupleAlias args => "typing.Tuple[" ++ argReprJoin args ++ "]"
  | .listAlias a => "typing.List[" ++ a.argRepr ++ "]"
  | .dictAlias k v => "typing.Dict[" ++ k.argRepr ++ ", " ++ v.argRepr ++ "]"
  | .setAlias a => "typing.Set[" ++ a.argRepr ++ "]"
  | .variadicAlias "tuple" => "typing.Tuple"
  | .variadicAlias o => "typing." ++ o
  | .anyMarker => "typing.Any"
  | .noReturnMarker => "typing.NoReturn"
  | .noneVal => "None"

def argReprJoin : List Shape → String
  | [] => ""
  | [s] => s.argRepr
  | s :: ss => s.argRepr ++ ", " ++ argReprJoin ss
end

/-- Python `repr` of a class object named `n`. -/
def clsRepr (n : String) : String :=
  "<class \x27" ++ n ++ "\x27>"

/-- Python `repr` of a type description (`repr(self._type)` in
`raise_error`): classes render as `<class '...'>`, `typing` aliases render
in `typing.` notation. -/
def Shape.pyRepr : Shape → String
  | .cls n => clsRepr n
  | s => s.argRepr

/-- Python `isinstance(v, t)` for the type objects the dispatch can install
as a `TypeChecker`'s `_type`: a plain class tests the runtime class chain; a
bare variadic alias such as `typing.Tuple` tests against its origin class.
The remaining shapes are never installed as the `_type` of a plain
`TypeChecker` by `get_type_checker`'s dispatch (parameterized aliases go to
the container checkers, the markers go to `EmptyTypeChecker`). -/
def pyIsInstance (v : Value) : Shape → Bool
  | .cls n => pyIsInstanceCls v n
  | .variadicAlias o => pyIsInstanceCls v o
  | _ => false

/-- The checker objects of `checkers.py`.  Each constructor mirrors one
class; container checkers own their child checkers (`_elem_checkers`,
`_elem_checker`, `_key_checker` / `_val_checker`), and every checker stores
its `_type` (used by `raise_error`). -/
inductive Checker where
  | typeChecker (ty : Shape)
  | tupleTypeChecker (ty : Shape) (elemCheckers : List Checker)
  | listTypeChecker (ty : Shape) (elemChecker : Checker)
  | dictTypeChecker (ty : Shape) (keyChecker valChecker : Checker)
  | setTypeChecker (ty : Shape) (elemChecker : Checker)
  | emptyTypeChecker
deriving Repr

/-- The message built by `TypeChecker.raise_error`: `msg or 'Expect: ...'`,
so an absent (or falsy, i.e. empty) custom message falls back to the default
format string
`'Expect: "{expect_type}".\nActual "{actual_type}({obj})".\n'`. -/
def raise_error_msg (ty : Shape) (obj : Value) (msg : Option String) : String :=
  let dflt := "Expect: \"" ++ ty.pyRepr ++ "\".\nActual \"" ++
      clsRepr obj.classOf ++ "(" ++ obj.pyRepr ++ ")\".\n"
  match msg with
  | some m => if m.isEmpty then dflt else m
  | none => dflt

/-- `TypeChecker.raise_error(obj, msg)`: raise `TypeCheckError(msg)` (no
`__cause__`). -/
def raiseErrorExc (ty : Shape) (obj : Value) (msg : Option String) : PyError :=
  .mk .typeCheckError (raise_error_msg ty obj msg) none

/-- Loop message `"The #{} element has incompatible type!"` used by both
`TupleTypeChecker` and `ListTypeChecker`. -/
def elemMsg (idx : Nat) : String :=
  "The #" ++ toString idx ++ " element has incompatible type!"

mutual
/-- The `__call__` methods of the checker classes.
  - `TypeChecker.__call__`: `if not isinstance(obj, self._type): raise`,
    then `return obj`;
  - `TupleTypeChecker.__call__`: `isinstance(obj, tuple)` check (here: a
    case split on the value, which has class `tuple` exactly for tuple
    values), then the length check, then the per-element loop;
  - `ListTypeChecker` / `DictTypeChecker` / `SetTypeChecker`: the
    corresponding shape check then the element loops;
  - `EmptyTypeChecker.__call__`: `return obj`. -/
def runChecker : Checker → Value → Except PyError Value
  | .typeChecker ty, obj =>
      if pyIsInstance obj ty then .ok obj else .error (raiseErrorExc ty obj none)
  | .tupleTypeChecker ty cks, obj =>
      match obj with
      | .tupleV elems =>
          if elems.length ≠ cks.length then
            .error (raiseErrorExc ty obj (some "Length of the tuple mismatch!"))
          else
            match checkTupleElems cks elems 0 with
            | .error e => .error e
            | .ok _ => .ok (.tupleV elems)
      | v => .error (raiseErrorExc ty v none)
  | .listTypeChecker ty ck, obj =>
      match obj with
      | .listV elems =>
          match checkListElems ck elems 0 with
          | .error e => .error e
          | .ok _ => .ok (.listV elems)
      | v => .error (raiseErrorExc ty v none)
  | .dictTypeChecker ty kck vck, obj =>
      match obj with
      | .dictV items =>
          match checkDictItems kck vck items with
          | .error e => .error e
          | .ok _ => .ok (.dictV items)
      | v => .error (raiseErrorExc ty v none)
  | .setTypeChecker ty ck, obj =>
      match obj with
      | .setV elems =>
          match checkSetElems ck elems with
          | .error e => .error e
          | .ok _ => .ok (.setV elems)
      | v => .error (raiseErrorExc ty v none)
  | .emptyTypeChecker, obj => .ok obj
termination_by c obj => 3 * sizeOf c + sizeOf obj
decreasing_by all_goals (simp_wf <;> omega)

/-- `do_type_check(checker, obj, message)`: run the checker; on
`TypeCheckError err`, `raise TypeCheckError(message) from err`. -/
def do_type_check (checker : Checker) (obj : Value) (message : String) :
    Except PyError Value :=
  match runChecker checker obj with
  | .ok v => .ok v
  | .error err => .error (.mk .typeCheckError message (some err))
termination_by 3 * sizeOf checker + sizeOf obj + 1
decreasing_by all_goals (simp_wf <;> omega)

/-- `for idx, checker in enumerate(self._elem_checkers): do_type_check(checker,
obj[idx], ...)`.  The two lists have equal length at every reachable call
(guarded by the length check); the leftover-checkers case is unreachable. -/
def checkTupleElems : List Checker → List Value → Nat → Except PyError Unit
  | [], _, _ => .ok ()
  | _ :: _, [], _ => .ok ()
  | c :: cs, v :: vs, idx =>
      match do_type_check c v (elemMsg idx) with
      | .error e => .error e
      | .ok _ => checkTupleElems cs vs (idx + 1)
termination_by cks vs idx => 3 * sizeOf cks + sizeOf vs + 2
decreasing_by all_goals (simp_wf <;> omega)

/-- `for idx, item in enumerate(obj): do_type_check(checker, item, ...)`. -/
def checkListElems (ck : Checker) : List Value → Nat → Except PyError Unit
  | [], _ => .ok ()
  | v :: vs, idx =>
      match do_type_check ck v (elemMsg idx) with
      | .error e => .error e
      | .ok _ => checkListElems ck vs (idx + 1)
termination_by vs idx => 3 * sizeOf ck + sizeOf vs + 2
decreasing_by all_goals (simp_wf <;> omega)

/-- `SetTypeChecker`'s element loop (the enumerate index is unused by its
message). -/
def checkSetElems (ck : Checker) : List Value → Except PyError Unit
  | [] => .ok ()
  | v :: vs =>
      match do_type_check ck v "Found an element that has incompatible type!" with
      | .error e => .error e
      | .ok _ => checkSetElems ck vs
termination_by vs => 3 * sizeOf ck + sizeOf vs + 2
decreasing_by all_goals (simp_wf <;> omega)

/-- `for key, val in obj.items(): ...` of `DictTypeChecker.__call__`. -/
def checkDictItems (kck vck : Checker) : List (Value × Value) → Except PyError Unit
  | [] => .ok ()
  | (k, v) :: ps =>
      match do_type_check kck k "Found a key that has incompatible type!" with
      | .error e => .error e
      | .ok _ =>
          match do_type_check vck v "Found a value that has incompatible type!" with
          | .error e => .error e
          | .ok _ => checkDictItems kck vck ps
termination_by ps => 3 * (sizeOf kck + sizeOf vck) + sizeOf ps + 2
decreasing_by all_goals (simp_wf <;> omega)
end

/-- A type-description object as it appears in an annotation: the
identity-erased content (`Shape`) plus, for classes and aliases, a Python
object id distinguishing structurally-equal-but-distinct objects.  The
`typing.Any` / `typing.NoReturn` markers and `None` are process-wide
singletons and need no id. -/
inductive DescObj where
  | cls (oid : Nat) (name : String)
  | tupleAlias (oid : Nat) (args : List DescObj)
  | listAlias (oid : Nat) (arg : DescObj)
  | dictAlias (oid : Nat) (key val : DescObj)
  | setAlias (oid : Nat) (arg : DescObj)
  | variadicAlias (oid : Nat) (origin : String)
  | anyMarker
  | noReturnMarker
  | noneVal
deriving Repr

mutual
/-- The identity-erased content of a description object: what Python `==`
and `hash` observe on it (`typing` aliases compare structurally). -/
def DescObj.erase : DescObj → Shape
  | .cls _ n => .cls n
  | .tupleAlias _ args => .tupleAlias (DescObj.eraseList args)
  | .listAlias _ a => .listAlias a.erase
  | .dictAlias _ k v => .dictAlias k.erase v.erase
  | .setAlias _ a => .setAlias a.erase
  | .variadicAlias _ o => .variadicAlias o
  | .anyMarker => .anyMarker
  | .noReturnMarker => .noReturnMarker
  | .noneVal => .noneVal
termination_by d => sizeOf d
decreasing_by all_goals (simp_wf <;> omega)

def DescObj.eraseList : List DescObj → List Shape
  | [] => []
  | d :: ds => d.erase :: DescObj.eraseList ds
termination_by l => sizeOf l
decreasing_by all_goals (simp_wf <;> omega)
end

/-- The state of the module-level registry: the dict
`get_type_checker._cache` (each entry keeps the key object it was stored
under, the id of the checker object it maps to, and that checker), plus a
counter supplying fresh object ids for newly constructed checkers.  Id `0`
is reserved for the module-level `EmptyTypeChecker` singleton, which exists
before any cache entry does. -/
structure RegState where
  cache : List (DescObj × Nat × Checker)
  nextId : Nat
deriving Repr

/-- The registry as of module import: empty cache (only the
`EmptyTypeChecker` singleton, id 0, exists). -/
def initState : RegState := ⟨[], 1⟩

/-- Python dict lookup `cache[type_]` / `type_ in cache`: keys are compared
by `==` (and `hash`), i.e. on their identity-erased content. -/
def cacheLookup : List (DescObj × Nat × Checker) → DescObj → Option (Nat × Checker)
  | [], _ => none
  | (k, vid, ck) :: rest, d =>
      if Shape.beq k.erase d.erase then some (vid, ck) else cacheLookup rest d

/-- Python dict assignment `cache[type_] = checker`: replace the value of
the first `==`-equal key (keeping the stored key object), else append. -/
def cacheInsert : List (DescObj × Nat × Checker) → DescObj → Nat → Checker →
    List (DescObj × Nat × Checker)
  | [], d, vid, ck => [(d, vid, ck)]
  | (k, v0, c0) :: rest, d, vid, ck =>
      if Shape.beq k.erase d.erase then (k, vid, ck) :: rest
      else (k, v0, c0) :: cacheInsert rest d vid ck

/-- Allocate a newly constructed checker object: it receives a fresh object
id. -/
def allocChecker (st : RegState) (ck : Checker) : RegState × Nat × Checker :=
  (⟨st.cache, st.nextId + 1⟩, st.nextId, ck)

mutual
/-- The inner `create_type_checker(type_)` dispatch of `get_type_checker`:
  - a `typing._VariadicGenericAlias` (bare `typing.Tuple` etc.) gets a plain
    `TypeChecker(type_)` (this branch runs first in the source;
    `_VariadicGenericAlias` is a subclass of `_GenericAlias`, so the order
    matters there — here the constructors are disjoint);
  - a `typing._GenericAlias` whose `__origin__` is `tuple` / `list` /
    `dict` / `set` gets the corresponding container checker, whose
    `__init__` recursively calls `get_type_checker` on each `__args__`
    entry (each checker also stores `type_` itself, as observed by
    `raise_error`, i.e. its erased shape);
  - `typing.Any`, `typing.NoReturn` and `None` get the module-level
    `EmptyTypeChecker` singleton (id 0), with no new allocation;
  - anything else gets a plain `TypeChecker(type_)`. -/
def create_type_checker (st : RegState) (d : DescObj) : RegState × Nat × Checker :=
  match d with
  | .variadicAlias _ o => allocChecker st (.typeChecker (.variadicAlias o))
  | .tupleAlias _ args =>
      let r := get_checker_list st args
      allocChecker r.1 (.tupleTypeChecker (.tupleAlias (DescObj.eraseList args)) r.2)
  | .listAlias _ a =>
      let r := get_type_checker st a
      allocChecker r.1 (.listTypeChecker (.listAlias a.erase) r.2.2)
  | .dictAlias _ k v =>
      let r1 := get_type_checker st k
      let r2 := get_type_checker r1.1 v
      allocChecker r2.1 (.dictTypeChecker (.dictAlias k.erase v.erase) r1.2.2 r2.2.2)
  | .setAlias _ a =>
      let r := get_type_checker st a
      allocChecker r.1 (.setTypeChecker (.setAlias a.erase) r.2.2)
  | .anyMarker => (st, 0, .emptyTypeChecker)
  | .noReturnMarker => (st, 0, .emptyTypeChecker)
  | .noneVal => (st, 0, .emptyTypeChecker)
  | .cls oid n => allocChecker st (.typeChecker (.cls n))
termination_by 2 * sizeOf d
decreasing_by all_goals (simp_wf <;> omega)

/-- `get_type_checker(type_)`: the result of the dispatch is memoized in the
module-level dict `get_type_checker._cache`:
`if type_ not in cache: cache[type_] = create_type_checker(type_)` then
`return cache[type_]`. -/
def get_type_checker (st : RegState) (d : DescObj) : RegState × Nat × Checker :=
  match cacheLookup st.cache d with
  | some (vid, ck) => (st, vid, ck)
  | none =>
      let r := create_type_checker st d
      ({ r.1 with cache := cacheInsert r.1.cache d r.2.1 r.2.2 }, r.2.1, r.2.2)
termination_by 2 * sizeOf d + 1
decreasing_by all_goals (simp_wf <;> omega)

/-- `tuple(get_type_checker(t) for t in type_.__args__)` of
`TupleTypeChecker.__init__`, threading the registry state left to right. -/
def get_checker_list (st : RegState) : List DescObj → RegState × List Checker
  | [] => (st, [])
  | a :: as =>
      let r := get_type_checker st a
      let rest := get_checker_list r.1 as
      (rest.1, r.2.2 :: rest.2)
termination_by l => 2 * sizeOf l + 1
decreasing_by all_goals (simp_wf <;> omega)
end


/-- The reflection data `inspect.getfullargspec` supplies for a callable
(the external signature-provider collaborator): ordered positional
parameter names, the `*args` / `**kwargs` names (or none), keyword-only
names, the trailing positional defaults (`None` or a tuple in Python, hence
an `Option`), the keyword-only defaults (`None` or a dict), and the
annotation dict (with key `"return"` for the return annotation). -/
structure ArgSpec where
  args : List String
  varargs : Option String
  varkw : Option String
  kwonlyargs : List String
  defaults : Option (List Value)
  kwonlydefaults : Option (List (String × Value))
  annotations : List (String × DescObj)

/-- Python dict lookup by string key (`d.get(k)` / `k in d` / `d[k]`). -/
def assocLookup {α : Type} : List (String × α) → String → Option α
  | [], _ => none
  | (k, v) :: rest, n => if k == n then some v else assocLookup rest n

/-- Python list slicing `l[start:stop]` (step 1): negative indices count
from the end; indices are clamped to `[0, len(l)]`. -/
def pySlice {α : Type} (l : List α) (start stop : Int) : List α :=
  let n : Int := l.length
  let s := if start < 0 then max (n + start) 0 else min start n
  let e := if stop < 0 then max (n + stop) 0 else min stop n
  (l.take e.toNat).drop s.toNat

/-- The inner `create_checker(arg_name)` of `FuncCallTypeChecker.__init__`.
`argspec.annotations.get(arg_name)` returns `None` both for a missing key
and for `arg_name = None` (the absent `*args` / `**kwargs` / missing
annotation cases) — `dict.get` never raises `KeyError`, so the
`except KeyError:` branch, which would enforce ` force_annotation` by
raising `TypeError('Function "..." must be fully annotated.')`, is
unreachable; a missing annotation always flows to `get_type_checker(None)`,
which yields the accept-all `EmptyTypeChecker`. -/
def create_checker (spec : ArgSpec) ( force_annotation : Bool) (st : RegState)
    (arg_name : Option String) : RegState × Nat × Checker :=
  let annotation :=
    match arg_name with
    | none => DescObj.noneVal
    | some n =>
        match assocLookup spec.annotations n with
        | some dsc => dsc
        | none => DescObj.noneVal
  get_type_checker st annotation

/-- The inner `create_checker_dict(arg_name_list)` of
`FuncCallTypeChecker.__init__`: an ordered dict from parameter names to
their checkers, built left to right. -/
def create_checker_dict (spec : ArgSpec) ( force_annotation : Bool) :
    RegState → List String → RegState × List (String × Checker)
  | st, [] => (st, [])
  | st, n :: ns =>
      let r := create_checker spec force_annotation st (some n)
      let rest := create_checker_dict spec force_annotation r.1 ns
      (rest.1, (n, r.2.2) :: rest.2)

/-- Message for a bad positional default
(`'Positional argument "{}" has an incompatible default value!'`). -/
def posDefaultMsg (name : String) : String :=
  "Positional argument \"" ++ name ++ "\" has an incompatible default value!"

/-- Message for a bad keyword-only default. -/
def kwDefaultMsg (name : String) : String :=
  "Keyword-only argument \"" ++ name ++ "\" has an incompatible default value!"

/-- The `for name, default in ...: do_type_check(checkers[name], default, msg)`
loops of `FuncCallTypeChecker.__init__`.  Indexing `checkers[name]` on a
missing key would raise `KeyError`. -/
def checkDefaultsLoop (checkers : List (String × Checker)) (msgFn : String → String) :
    List (String × Value) → Except PyError Unit
  | [] => .ok ()
  | (name, dflt) :: rest =>
      match assocLookup checkers name with
      | none => .error (.mk .keyError name none)
      | some ck =>
          match do_type_check ck dflt (msgFn name) with
          | .error e => .error e
          | .ok _ => checkDefaultsLoop checkers msgFn rest

/-- The state built by `FuncCallTypeChecker.__init__` (the wrapped `_func`
itself is passed separately at call time). -/
structure FuncCallTypeChecker where
  check_args : Bool
  check_return : Bool
  arg_checkers : List (String × Checker)
  kw_checkers : List (String × Checker)
  varg_checker : Checker
  vkw_checker : Checker
  ret_checker : Checker
  arg_defaults : List (String × Value)
  kw_defaults : List (String × Value)
deriving Repr

/-- `FuncCallTypeChecker.__init__`, after `inspect.getfullargspec` has
produced `spec`:
  - build the positional and keyword-only checker dicts, the `*args`,
    `**kwargs` and return checkers (all through the registry);
  - compute `self._arg_defaults` as
    `zip(argspec.args[-len(arg_defaults):0], arg_defaults)` — note the
    slice bound `0`, written exactly as in the source — and eagerly
    validate those entries;
  - take `self._kw_defaults = argspec.kwonlydefaults or {}` and eagerly
    validate its entries.
An exception raised by a default check propagates out of the constructor
(`Except.error`). -/
def FuncCallTypeChecker.init (st : RegState) (spec : ArgSpec)
    (check_args check_return : Bool) ( force_annotation : Bool) :
    Except PyError (RegState × FuncCallTypeChecker) :=
  let r1 := create_checker_dict spec force_annotation st spec.args
  let r2 := create_checker_dict spec force_annotation r1.1 spec.kwonlyargs
  let r3 := create_checker spec force_annotation r2.1 spec.varargs
  let r4 := create_checker spec force_annotation r3.1 spec.varkw
  let r5 := create_checker spec force_annotation r4.1 (some "return")
  let arg_defaults := spec.defaults.getD []
  let defaults_map := (pySlice spec.args (-(arg_defaults.length : Int)) 0).zip arg_defaults
  match checkDefaultsLoop r1.2 posDefaultMsg defaults_map with
  | .error e => .error e
  | .ok _ =>
      let kw_defaults := spec.kwonlydefaults.getD []
      match checkDefaultsLoop r2.2 kwDefaultMsg kw_defaults with
      | .error e => .error e
      | .ok _ =>
          .ok (r5.1,
            { check_args := check_args
              check_return := check_return
              arg_checkers := r1.2
              kw_checkers := r2.2
              varg_checker := r3.2.2
              vkw_checker := r4.2.2
              ret_checker := r5.2.2
              arg_defaults := defaults_map
              kw_defaults := kw_defaults })

/-- Message for a bad positional argument at call time
(`'Positional argument "{}" takes a incompatible value!'`). -/
def posArgMsg (name : String) : String :=
  "Positional argument \"" ++ name ++ "\" takes a incompatible value!"

/-- Message for a bad extra positional argument checked against the `*args`
checker (`"#{} positional argument takes a incompatible value"`). -/
def vargMsg (idx : Nat) : String :=
  "#" ++ toString idx ++ " positional argument takes a incompatible value"

/-- Message for a bad keyword argument
(`'Keyword argument "{}" takes a incompatible value!'`). -/
def kwArgMsg (name : String) : String :=
  "Keyword argument \"" ++ name ++ "\" takes a incompatible value!"

/-- Message for a bad return value (`'Return a incompatible value!'`). -/
def retMsg : String := "Return a incompatible value!"

/-- The `while arg_idx != num_arg:` loop of `FuncCallTypeChecker.__call__`:
every positional argument beyond the declared ones is checked against the
`*args` checker (`self._varg_checker`), with the running argument index in
the message. -/
def checkVarArgs (ck : Checker) : List Value → Nat → Except PyError Unit
  | [], _ => .ok ()
  | a :: rest, idx =>
      match do_type_check ck a (vargMsg idx) with
      | .error e => .error e
      | .ok _ => checkVarArgs ck rest (idx + 1)

/-- The `for name, checker in self._arg_checkers.items():` loop of
`FuncCallTypeChecker.__call__` (which breaks once the supplied positional
arguments run out), followed by the `while` loop over the remaining
positional arguments: declared positional checkers and supplied arguments
are consumed in lockstep, and leftover arguments go to the `*args`
checker. -/
def checkArgsAgainst (checkers : List (String × Checker)) (vargCk : Checker) :
    List Value → Nat → Except PyError Unit
  | [], _ => .ok ()
  | args, idx =>
      match checkers with
      | [] => checkVarArgs vargCk args idx
      | (name, ck) :: cs =>
          match args with
          | [] => .ok ()
          | a :: rest =>
              match do_type_check ck a (posArgMsg name) with
              | .error e => .error e
              | .ok _ => checkArgsAgainst cs vargCk rest (idx + 1)

/-- Checker resolution for one keyword argument in
`FuncCallTypeChecker.__call__`: first a positional parameter of that name,
then a keyword-only parameter, else the `**kwargs` checker
(`self._vkw_checker`). -/
def FuncCallTypeChecker.resolveKwChecker (fc : FuncCallTypeChecker) (name : String) :
    Checker :=
  match assocLookup fc.arg_checkers name with
  | some ck => ck
  | none =>
      match assocLookup fc.kw_checkers name with
      | some ck => ck
      | none => fc.vkw_checker

/-- The `for name, value in kwargs.items():` loop of
`FuncCallTypeChecker.__call__`. -/
def checkKwArgs (fc : FuncCallTypeChecker) : List (String × Value) → Except PyError Unit
  | [] => .ok ()
  | (name, v) :: rest =>
      match do_type_check (fc.resolveKwChecker name) v (kwArgMsg name) with
      | .error e => .error e
      | .ok _ => checkKwArgs fc rest

/-- The whole argument-checking phase guarded by `if self._check_args:`. -/
def checkAllArgs (fc : FuncCallTypeChecker) (args : List Value)
    (kwargs : List (String × Value)) : Except PyError Unit :=
  match checkArgsAgainst fc.arg_checkers fc.varg_checker args 0 with
  | .error e => .error e
  | .ok _ => checkKwArgs fc kwargs

/-- `FuncCallTypeChecker.__call__`: check the arguments (when enabled),
run `ret = self._func(*args, **kwargs)`, check the return value (when
enabled), and pass `ret` through.  The wrapped callable is modelled as a
state transformer `f` over an arbitrary state type `σ`, so that whether
(and when) its side effects happen is observable: a raised exception
(`Except.error`) propagates to the caller with the state as of the raise
point. -/
def FuncCallTypeChecker.call {σ : Type} (fc : FuncCallTypeChecker)
    (f : List Value → List (String × Value) → σ → σ × Value)
    (args : List Value) (kwargs : List (String × Value)) (s : σ) :
    σ × Except PyError Value :=
  let argres : Except PyError Unit :=
    if fc.check_args then checkAllArgs fc args kwargs else .ok ()
  match argres with
  | .error e => (s, .error e)
  | .ok _ =>
      let r := f args kwargs s
      if fc.check_return then
        match do_type_check fc.ret_checker r.2 retMsg with
        | .error e => (r.1, .error e)
        | .ok _ => (r.1, .ok r.2)
      else (r.1, .ok r.2)

/-- Whether a type description's content is one of the accept-all markers
(`typing.Any`, `typing.NoReturn`, `None`). -/
def markerShape : Shape → Bool
  | .anyMarker => true
  | .noReturnMarker => true
  | .noneVal => true
  | _ => false

/-- Registry wellformedness: every cache entry whose key is one of the
accept-all markers maps to the `EmptyTypeChecker` singleton (id `0`).  This
holds for the import-time state (empty cache) and is preserved by
`get_type_checker`, whose dispatch sends exactly those keys to the
singleton. -/
def CacheOK (cache : List (DescObj × Nat × Checker)) : Prop :=
  ∀ p ∈ cache, markerShape p.1.erase = true → p.2 = (0, Checker.emptyTypeChecker)

/-! ### Verification -/

theorem shape_sizeOf_pos (a : Shape) : 0 < sizeOf a := by
  cases a <;> simp

theorem Shape.beqList_iff_aux (n : Nat)
    (IH : ∀ a b : Shape, sizeOf a ≤ n → (Shape.beq a b = true ↔ a = b)) :
    ∀ as bs : List Shape, (∀ a ∈ as, sizeOf a ≤ n) →
      (Shape.beqList as bs = true ↔ as = bs) := by
  intro as
  induction as with
  | nil => intro bs _; cases bs <;> simp [Shape.beqList]
  | cons a as ih =>
      intro bs hmem
      cases bs with
      | nil => simp [Shape.beqList]
      | cons b bs =>
          have ha := IH a b (hmem a (by simp))
          have hrest := ih bs (fun x hx => hmem x (by simp [hx]))
          simp [Shape.beqList, ha, hrest]

theorem Shape.beq_iff_aux :
    ∀ (n : Nat) (a b : Shape), sizeOf a ≤ n → (Shape.beq a b = true ↔ a = b) := by
  intro n
  induction n with
  | zero =>
      intro a b h
      exact absurd h (by have := shape_sizeOf_pos a; omega)
  | succ n ih =>
      intro a b h
      cases a with
      | cls n1 => cases b <;> simp [Shape.beq]
      | tupleAlias as =>
          cases b <;> simp [Shape.beq]
          case tupleAlias bs =>
            exact Shape.beqList_iff_aux n ih as bs (fun x hx => by
              have h1 : sizeOf x < sizeOf as := List.sizeOf_lt_of_mem hx
              have h2 : sizeOf (Shape.tupleAlias as) = 1 + sizeOf as := by simp
              omega)
      | listAlias a1 =>
          cases b <;> simp [Shape.beq]
          case listAlias b1 =>
            exact ih a1 b1 (by have : sizeOf (Shape.listAlias a1) = 1 + sizeOf a1 := by simp
                               omega)
      | dictAlias k1 v1 =>
          cases b <;> simp [Shape.beq]
          case dictAlias k2 v2 =>
            have hs : sizeOf (Shape.dictAlias k1 v1) = 1 + sizeOf k1 + sizeOf v1 := by simp
            rw [ih k1 k2 (by omega), ih v1 v2 (by omega)]
      | setAlias a1 =>
          cases b <;> simp [Shape.beq]
          case setAlias b1 =>
            exact ih a1 b1 (by have : sizeOf (Shape.setAlias a1) = 1 + sizeOf a1 := by simp
                               omega)
      | variadicAlias o1 => cases b <;> simp [Shape.beq]
      | anyMarker => cases b <;> simp [Shape.beq]
      | noReturnMarker => cases b <;> simp [Shape.beq]
      | noneVal => cases b <;> simp [Shape.beq]

theorem Shape.beq_iff (a b : Shape) : Shape.beq a b = true ↔ a = b :=
  Shape.beq_iff_aux (sizeOf a) a b le_rfl

theorem Shape.beq_self (a : Shape) : Shape.beq a a = true :=
  (Shape.beq_iff a a).2 rfl


theorem cacheLookup_congr (c : List (DescObj × Nat × Checker)) {d1 d2 : DescObj}
    (h : d1.erase = d2.erase) : cacheLookup c d1 = cacheLookup c d2 := by
  induction c with
  | nil => rfl
  | cons kv rest ih =>
      obtain ⟨k, vid, ck⟩ := kv
      simp only [cacheLookup, h, ih]

theorem cacheLookup_insert {c : List (DescObj × Nat × Checker)} {d d' : DescObj}
    {vid : Nat} {ck : Checker} (h : d.erase = d'.erase) :
    cacheLookup (cacheInsert c d vid ck) d' = some (vid, ck) := by
  induction c with
  | nil => simp [cacheInsert, cacheLookup, h, Shape.beq_self]
  | cons kv rest ih =>
      obtain ⟨k, v0, c0⟩ := kv
      by_cases hk : k.erase = d.erase
      · simp [cacheInsert, hk, cacheLookup, h, Shape.beq_self, Shape.beq_iff]
      · have hk2 : ¬ (k.erase = d'.erase) := fun hh => hk (hh.trans h.symm)
        simp [cacheInsert, cacheLookup, Shape.beq_iff, hk, hk2, ih]

/-- After any `get_type_checker` call, the cache maps the requested
description (by dict-key equality) to exactly the returned checker id and
checker. -/
theorem get_type_checker_spec (st : RegState) (d : DescObj) :
    cacheLookup (get_type_checker st d).1.cache d = some (get_type_checker st d).2 := by
  rw [get_type_checker]
  cases h : cacheLookup st.cache d with
  | some p => simp [h]
  | none => simp [h, cacheLookup_insert rfl]

/-- A cache hit returns the cached entry and leaves the registry state
unchanged. -/
theorem get_type_checker_hit {st : RegState} {d : DescObj} {vid : Nat} {ck : Checker}
    (h : cacheLookup st.cache d = some (vid, ck)) :
    get_type_checker st d = (st, vid, ck) := by
  rw [get_type_checker, h]

/-- Claim C2: for every type description, two calls to `get_type_checker`
with the same description object return the identical checker instance
(same object id and checker), and the second call leaves the registry
unchanged — repeated lookups never construct a second checker for the same
description. -/
theorem get_type_checker_memoized (st : RegState) (d : DescObj) :
    get_type_checker (get_type_checker st d).1 d = get_type_checker st d := by
  have hs := get_type_checker_spec st d
  rw [get_type_checker_hit hs]

/-- Claim C10: the registry cache is keyed by description equality (Python
dict keying by `==` / `hash`), not object identity: after a call for `d1`,
a call for any `d2` that compares equal to `d1` — even a distinct object —
returns the identical cached checker (same id) and constructs nothing,
leaving the registry unchanged. -/
theorem get_type_checker_equality_keyed (st : RegState) (d1 d2 : DescObj)
    (h : d1.erase = d2.erase) :
    get_type_checker (get_type_checker st d1).1 d2 = get_type_checker st d1 := by
  have hs := get_type_checker_spec st d1
  rw [cacheLookup_congr _ h] at hs
  rw [get_type_checker_hit hs]

/-- Witness for C10: two distinct `typing.List[int]` description objects
(object ids 1 and 2, with distinct inner class objects as well) compare
equal, and the second lookup returns the first lookup's checker with the
registry unchanged. -/
theorem get_type_checker_equality_keyed_witness :
    (DescObj.listAlias 1 (.cls 10 "int")).erase =
      (DescObj.listAlias 2 (.cls 11 "int")).erase ∧
    get_type_checker (get_type_checker initState (DescObj.listAlias 1 (.cls 10 "int"))).1
        (DescObj.listAlias 2 (.cls 11 "int")) =
      get_type_checker initState (DescObj.listAlias 1 (.cls 10 "int")) :=
  ⟨by simp [DescObj.erase],
   get_type_checker_equality_keyed initState (DescObj.listAlias 1 (.cls 10 "int"))
     (DescObj.listAlias 2 (.cls 11 "int")) (by simp [DescObj.erase])⟩

/-- Unfolding of `TypeChecker.__call__`: an `isinstance` test, then either
pass the object through or `raise_error`. -/
theorem runChecker_typeChecker (ty : Shape) (v : Value) :
    runChecker (.typeChecker ty) v =
      if pyIsInstance v ty then .ok v else .error (raiseErrorExc ty v none) := by
  simp [runChecker]

/-- Claim C1: for every runtime value `v` and primitive (plain-class,
non-container, non-accept-all) description `D`, the primitive checker
succeeds and returns `v` itself iff `v`'s runtime class is `D` or a
subclass of `D` (Python `isinstance`); otherwise it raises a
`TypeCheckError` carrying the expected-versus-actual report. -/
theorem primitive_checker_iff_isinstance (D : String) (v : Value) :
    (runChecker (.typeChecker (.cls D)) v = .ok v ↔ pyIsInstanceCls v D = true) ∧
    (pyIsInstanceCls v D = false →
      runChecker (.typeChecker (.cls D)) v =
        .error (.mk .typeCheckError (raise_error_msg (.cls D) v none) none)) := by
  cases h : pyIsInstanceCls v D with
  | true => simp [runChecker_typeChecker, pyIsInstance, h]
  | false => simp [runChecker_typeChecker, pyIsInstance, h, raiseErrorExc]

/-- Witness for C1: `int`-checking the string `"x"` is not an instance and
produces the `TypeCheckError`; `int`-checking `3` passes (and `True` passes
as well, `bool` being a subclass of `int`). -/
theorem primitive_checker_iff_isinstance_witness :
    pyIsInstanceCls (Value.strV "x") "int" = false ∧
    runChecker (.typeChecker (.cls "int")) (.strV "x") =
      .error (.mk .typeCheckError
        (raise_error_msg (.cls "int") (.strV "x") none) none) ∧
    (runChecker (.typeChecker (.cls "int")) (.intV 3) = .ok (.intV 3) ↔
      pyIsInstanceCls (Value.intV 3) "int" = true) :=
  ⟨by decide,
   (primitive_checker_iff_isinstance "int" (.strV "x")).2 (by decide),
   (primitive_checker_iff_isinstance "int" (.intV 3)).1⟩

theorem raise_error_msg_custom (ty : Shape) (obj : Value) (m : String)
    (h : m.isEmpty = false) : raise_error_msg ty obj (some m) = m := by
  simp [raise_error_msg, h]

theorem checkTupleElems_ok : ∀ (cks : List Checker) (elems : List Value) (idx : Nat),
    (∀ p ∈ cks.zip elems, ∃ w, runChecker p.1 p.2 = .ok w) →
    checkTupleElems cks elems idx = .ok () := by
  intro cks
  induction cks with
  | nil => intro elems idx _; cases elems <;> simp [checkTupleElems]
  | cons c cs ih =>
      intro elems idx hpass
      cases elems with
      | nil => simp [checkTupleElems]
      | cons v vs =>
          obtain ⟨w, hw⟩ := hpass (c, v) (by simp)
          have hd : do_type_check c v (elemMsg idx) = .ok w := by
            simp [do_type_check, hw]
          simp [checkTupleElems, hd, ih vs (idx + 1) (fun p hp => hpass p (by simp [hp]))]

/-- Claim C3: a `TupleTypeChecker` with `n` declared slot checkers rejects —
with the hard `"Length of the tuple mismatch!"` failure, before looking at
any element — every runtime tuple whose length is not `n`, whatever its
elements; and on a tuple of length `n` each of whose elements passes its
slot checker, it returns the original tuple unchanged. -/
theorem tuple_checker_arity (ty : Shape) (cks : List Checker) (elems : List Value) :
    (elems.length ≠ cks.length →
      runChecker (.tupleTypeChecker ty cks) (.tupleV elems) =
        .error (.mk .typeCheckError "Length of the tuple mismatch!" none)) ∧
    (elems.length = cks.length →
      (∀ p ∈ cks.zip elems, ∃ w, runChecker p.1 p.2 = .ok w) →
      runChecker (.tupleTypeChecker ty cks) (.tupleV elems) = .ok (.tupleV elems)) := by
  constructor
  · intro hne
    have hmsg := raise_error_msg_custom ty (.tupleV elems) "Length of the tuple mismatch!"
      (by rfl)
    simp [runChecker, hne, raiseErrorExc, hmsg]
  · intro hlen hpass
    have hok := checkTupleElems_ok cks elems 0 hpass
    simp [runChecker, hlen, hok]

/-- Witness for C3: the 1-slot tuple description rejects a length-2 tuple of
ints; the `(int, str)` description passes `(3, "a")` unchanged. -/
theorem tuple_checker_arity_witness :
    (([Value.intV 1, .intV 2]).length ≠
        [Checker.typeChecker (.cls "int")].length ∧
      runChecker (.tupleTypeChecker (.tupleAlias [.cls "int"]) [.typeChecker (.cls "int")])
        (.tupleV [.intV 1, .intV 2]) =
        .error (.mk .typeCheckError "Length of the tuple mismatch!" none)) ∧
    runChecker (.tupleTypeChecker (.tupleAlias [.cls "int", .cls "str"])
        [.typeChecker (.cls "int"), .typeChecker (.cls "str")])
      (.tupleV [.intV 3, .strV "a"]) = .ok (.tupleV [.intV 3, .strV "a"]) :=
  ⟨⟨by decide, (tuple_checker_arity _ _ _).1 (by decide)⟩,
   (tuple_checker_arity _ _ _).2 (by decide) (by
     intro p hp
     simp [List.zip] at hp
     rcases hp with h | h <;> subst h
     · exact ⟨Value.intV 3,
         by simp [runChecker, pyIsInstance, pyIsInstanceCls, Value.classOf, pyMro]⟩
     · exact ⟨Value.strV "a",
         by simp [runChecker, pyIsInstance, pyIsInstanceCls, Value.classOf, pyMro]⟩)⟩

/-- Claim C4 as stated is false on the code: applying the list-of-int
checker to `[1, 2, "x"]` does fail, but the error chain's leaf message is
`raise_error`'s expected-versus-actual report, which does not name index 2;
the message that names index 2 is the wrapping context layer added by
`do_type_check`, one level above the leaf. -/
theorem list_of_int_leaf_counterexample :
    runChecker (.listTypeChecker (.listAlias (.cls "int")) (.typeChecker (.cls "int")))
        (.listV [.intV 1, .intV 2, .strV "x"]) =
      .error (.mk .typeCheckError "The #2 element has incompatible type!"
        (some (.mk .typeCheckError
          "Expect: \"<class \x27int\x27>\".\nActual \"<class \x27str\x27>(\x27x\x27)\".\n" none))) ∧
    PyError.leafMsg (.mk .typeCheckError "The #2 element has incompatible type!"
        (some (.mk .typeCheckError
          "Expect: \"<class \x27int\x27>\".\nActual \"<class \x27str\x27>(\x27x\x27)\".\n" none))) =
      "Expect: \"<class \x27int\x27>\".\nActual \"<class \x27str\x27>(\x27x\x27)\".\n" ∧
    strMentions
      "Expect: \"<class \x27int\x27>\".\nActual \"<class \x27str\x27>(\x27x\x27)\".\n" "#2" =
      false := by
  refine ⟨?_, by simp [PyError.leafMsg], by decide⟩
  simp [runChecker, checkListElems, do_type_check, pyIsInstance, pyIsInstanceCls,
    Value.classOf, pyMro, raiseErrorExc, raise_error_msg, Shape.pyRepr, clsRepr,
    Value.pyRepr, elemMsg]
  rfl

/-- Claim C4 (amended): the list-of-int checker applied to `[1, 2, "x"]`
fails; the failure arises at the first failing element (the earlier
elements `1` and `2` each pass the element checker); and the raised error's
outer context message — the layer `do_type_check` wraps directly around the
leaf — names index 2 as the offending element, while the leaf itself
reports the expected and actual runtime types. -/
theorem list_of_int_element_context :
    runChecker (.listTypeChecker (.listAlias (.cls "int")) (.typeChecker (.cls "int")))
        (.listV [.intV 1, .intV 2, .strV "x"]) =
      .error (.mk .typeCheckError "The #2 element has incompatible type!"
        (some (.mk .typeCheckError
          "Expect: \"<class \x27int\x27>\".\nActual \"<class \x27str\x27>(\x27x\x27)\".\n" none))) ∧
    runChecker (.typeChecker (.cls "int")) (.intV 1) = .ok (.intV 1) ∧
    runChecker (.typeChecker (.cls "int")) (.intV 2) = .ok (.intV 2) ∧
    strMentions "The #2 element has incompatible type!" "#2" = true := by
  refine ⟨?_, ?_, ?_, by decide⟩
  · simp [runChecker, checkListElems, do_type_check, pyIsInstance, pyIsInstanceCls,
      Value.classOf, pyMro, raiseErrorExc, raise_error_msg, Shape.pyRepr, clsRepr,
      Value.pyRepr, elemMsg]
    rfl
  · simp [runChecker, pyIsInstance, pyIsInstanceCls, Value.classOf, pyMro]
  · simp [runChecker, pyIsInstance, pyIsInstanceCls, Value.classOf, pyMro]

theorem do_type_check_error_cls {c : Checker} {obj : Value} {m : String} {e : PyError}
    (h : do_type_check c obj m = .error e) : e.cls = .typeCheckError := by
  rw [do_type_check] at h
  cases hr : runChecker c obj with
  | ok v => simp [hr] at h
  | error err =>
      simp [hr] at h
      subst h
      rfl

theorem checkTupleElems_error_cls :
    ∀ {cks : List Checker} {vs : List Value} {idx : Nat} {e : PyError},
    checkTupleElems cks vs idx = .error e → e.cls = .typeCheckError := by
  intro cks
  induction cks with
  | nil => intro vs idx e h; simp [checkTupleElems] at h
  | cons c cs ih =>
      intro vs idx e h
      cases vs with
      | nil => simp [checkTupleElems] at h
      | cons v vrest =>
          simp only [checkTupleElems] at h
          cases hd : do_type_check c v (elemMsg idx) with
          | error e0 =>
              rw [hd] at h
              simp at h
              subst h
              exact do_type_check_error_cls hd
          | ok w =>
              rw [hd] at h
              exact ih h

theorem checkListElems_error_cls {ck : Checker} :
    ∀ {vs : List Value} {idx : Nat} {e : PyError},
    checkListElems ck vs idx = .error e → e.cls = .typeCheckError := by
  intro vs
  induction vs with
  | nil => intro idx e h; simp [checkListElems] at h
  | cons v vrest ih =>
      intro idx e h
      simp only [checkListElems] at h
      cases hd : do_type_check ck v (elemMsg idx) with
      | error e0 =>
          rw [hd] at h
          simp at h
          subst h
          exact do_type_check_error_cls hd
      | ok w =>
          rw [hd] at h
          exact ih h

theorem checkSetElems_error_cls {ck : Checker} :
    ∀ {vs : List Value} {e : PyError},
    checkSetElems ck vs = .error e → e.cls = .typeCheckError := by
  intro vs
  induction vs with
  | nil => intro e h; simp [checkSetElems] at h
  | cons v vrest ih =>
      intro e h
      simp only [checkSetElems] at h
      cases hd : do_type_check ck v "Found an element that has incompatible type!" with
      | error e0 =>
          rw [hd] at h
          simp at h
          subst h
          exact do_type_check_error_cls hd
      | ok w =>
          rw [hd] at h
          exact ih h

theorem checkDictItems_error_cls {kck vck : Checker} :
    ∀ {ps : List (Value × Value)} {e : PyError},
    checkDictItems kck vck ps = .error e → e.cls = .typeCheckError := by
  intro ps
  induction ps with
  | nil => intro e h; simp [checkDictItems] at h
  | cons p rest ih =>
      intro e h
      obtain ⟨k, v⟩ := p
      simp only [checkDictItems] at h
      cases hk : do_type_check kck k "Found a key that has incompatible type!" with
      | error e0 =>
          rw [hk] at h
          simp at h
          subst h
          exact do_type_check_error_cls hk
      | ok w =>
          rw [hk] at h
          simp only [] at h
          cases hv : do_type_check vck v "Found a value that has incompatible type!" with
          | error e1 =>
              rw [hv] at h
              simp at h
              subst h
              exact do_type_check_error_cls hv
          | ok w1 =>
              rw [hv] at h
              exact ih h

theorem raiseErrorExc_cls (ty : Shape) (obj : Value) (m : Option String) :
    (raiseErrorExc ty obj m).cls = .typeCheckError := rfl

theorem runChecker_error_cls : ∀ {c : Checker} {obj : Value} {e : PyError},
    runChecker c obj = .error e → e.cls = .typeCheckError := by
  intro c obj e h
  cases c with
  | typeChecker ty =>
      rw [runChecker_typeChecker] at h
      cases hi : pyIsInstance obj ty with
      | true => rw [hi] at h; simp at h
      | false =>
          rw [hi] at h
          simp at h
          subst h
          rfl
  | tupleTypeChecker ty cks =>
      cases obj with
      | tupleV elems =>
          simp only [runChecker] at h
          by_cases hl : elems.length = cks.length
          · simp only [hl, ne_eq, not_true_eq_false, if_false] at h
            cases ht : checkTupleElems cks elems 0 with
            | error e0 =>
                rw [ht] at h
                simp at h
                subst h
                exact checkTupleElems_error_cls ht
            | ok u => rw [ht] at h; simp at h
          · simp only [ne_eq, hl, not_false_eq_true, if_true] at h
            simp at h
            subst h
            rfl
      | intV n => simp [runChecker] at h; subst h; rfl
      | boolV b => simp [runChecker] at h; subst h; rfl
      | strV s => simp [runChecker] at h; subst h; rfl
      | noneV => simp [runChecker] at h; subst h; rfl
      | listV vs => simp [runChecker] at h; subst h; rfl
      | dictV ps => simp [runChecker] at h; subst h; rfl
      | setV vs => simp [runChecker] at h; subst h; rfl
  | listTypeChecker ty ck =>
      cases obj with
      | listV elems =>
          simp only [runChecker] at h
          cases ht : checkListElems ck elems 0 with
          | error e0 =>
              rw [ht] at h
              simp at h
              subst h
              exact checkListElems_error_cls ht
          | ok u => rw [ht] at h; simp at h
      | intV n => simp [runChecker] at h; subst h; rfl
      | boolV b => simp [runChecker] at h; subst h; rfl
      | strV s => simp [runChecker] at h; subst h; rfl
      | noneV => simp [runChecker] at h; subst h; rfl
      | tupleV vs => simp [runChecker] at h; subst h; rfl
      | dictV ps => simp [runChecker] at h; subst h; rfl
      | setV vs => simp [runChecker] at h; subst h; rfl
  | dictTypeChecker ty kck vck =>
      cases obj with
      | dictV items =>
          simp only [runChecker] at h
          cases ht : checkDictItems kck vck items with
          | error e0 =>
              rw [ht] at h
              simp at h
              subst h
              exact checkDictItems_error_cls ht
          | ok u => rw [ht] at h; simp at h
      | intV n => simp [runChecker] at h; subst h; rfl
      | boolV b => simp [runChecker] at h; subst h; rfl
      | strV s => simp [runChecker] at h; subst h; rfl
      | noneV => simp [runChecker] at h; subst h; rfl
      | tupleV vs => simp [runChecker] at h; subst h; rfl
      | listV vs => simp [runChecker] at h; subst h; rfl
      | setV vs => simp [runChecker] at h; subst h; rfl
  | setTypeChecker ty ck =>
      cases obj with
      | setV elems =>
          simp only [runChecker] at h
          cases ht : checkSetElems ck elems with
          | error e0 =>
              rw [ht] at h
              simp at h
              subst h
              exact checkSetElems_error_cls ht
          | ok u => rw [ht] at h; simp at h
      | intV n => simp [runChecker] at h; subst h; rfl
      | boolV b => simp [runChecker] at h; subst h; rfl
      | strV s => simp [runChecker] at h; subst h; rfl
      | noneV => simp [runChecker] at h; subst h; rfl
      | tupleV vs => simp [runChecker] at h; subst h; rfl
      | listV vs => simp [runChecker] at h; subst h; rfl
      | dictV ps => simp [runChecker] at h; subst h; rfl
  | emptyTypeChecker => simp [runChecker] at h

theorem checkVarArgs_error_cls {ck : Checker} :
    ∀ {vs : List Value} {idx : Nat} {e : PyError},
    checkVarArgs ck vs idx = .error e → e.cls = .typeCheckError := by
  intro vs
  induction vs with
  | nil => intro idx e h; simp [checkVarArgs] at h
  | cons a rest ih =>
      intro idx e h
      simp only [checkVarArgs] at h
      cases hd : do_type_check ck a (vargMsg idx) with
      | error e0 =>
          rw [hd] at h
          simp at h
          subst h
          exact do_type_check_error_cls hd
      | ok w =>
          rw [hd] at h
          exact ih h

theorem checkArgsAgainst_error_cls {vargCk : Checker} :
    ∀ {checkers : List (String × Checker)} {args : List Value} {idx : Nat} {e : PyError},
    checkArgsAgainst checkers vargCk args idx = .error e → e.cls = .typeCheckError := by
  intro checkers
  induction checkers with
  | nil =>
      intro args idx e h
      cases args with
      | nil => simp [checkArgsAgainst] at h
      | cons a rest =>
          simp only [checkArgsAgainst] at h
          exact checkVarArgs_error_cls h
  | cons nc cs ih =>
      intro args idx e h
      obtain ⟨name, ck⟩ := nc
      cases args with
      | nil => simp [checkArgsAgainst] at h
      | cons a rest =>
          simp only [checkArgsAgainst] at h
          cases hd : do_type_check ck a (posArgMsg name) with
          | error e0 =>
              rw [hd] at h
              simp at h
              subst h
              exact do_type_check_error_cls hd
          | ok w =>
              rw [hd] at h
              exact ih h

theorem checkKwArgs_error_cls {fc : FuncCallTypeChecker} :
    ∀ {kwargs : List (String × Value)} {e : PyError},
    checkKwArgs fc kwargs = .error e → e.cls = .typeCheckError := by
  intro kwargs
  induction kwargs with
  | nil => intro e h; simp [checkKwArgs] at h
  | cons nv rest ih =>
      intro e h
      obtain ⟨name, v⟩ := nv
      simp only [checkKwArgs] at h
      cases hd : do_type_check (fc.resolveKwChecker name) v (kwArgMsg name) with
      | error e0 =>
          rw [hd] at h
          simp at h
          subst h
          exact do_type_check_error_cls hd
      | ok w =>
          rw [hd] at h
          exact ih h

theorem checkAllArgs_error_cls {fc : FuncCallTypeChecker} {args : List Value}
    {kwargs : List (String × Value)} {e : PyError}
    (h : checkAllArgs fc args kwargs = .error e) : e.cls = .typeCheckError := by
  rw [checkAllArgs] at h
  cases ha : checkArgsAgainst fc.arg_checkers fc.varg_checker args 0 with
  | error e0 =>
      rw [ha] at h
      simp at h
      subst h
      exact checkArgsAgainst_error_cls ha
  | ok u =>
      rw [ha] at h
      exact checkKwArgs_error_cls h

theorem call_error_cls {σ : Type} {fc : FuncCallTypeChecker}
    {f : List Value → List (String × Value) → σ → σ × Value}
    {args : List Value} {kwargs : List (String × Value)} {s : σ} {e : PyError}
    (h : (FuncCallTypeChecker.call fc f args kwargs s).2 = .error e) :
    e.cls = .typeCheckError := by
  rw [FuncCallTypeChecker.call] at h
  cases ha : (if fc.check_args then checkAllArgs fc args kwargs else .ok ()) with
  | error e0 =>
      rw [ha] at h
      simp at h
      subst h
      by_cases hca : fc.check_args
      · rw [if_pos hca] at ha
        exact checkAllArgs_error_cls ha
      · rw [if_neg hca] at ha
        exact absurd ha (by simp)
  | ok u =>
      rw [ha] at h
      by_cases hcr : fc.check_return
      · simp only [hcr, if_true] at h
        cases hr : do_type_check fc.ret_checker (f args kwargs s).2 retMsg with
        | error e1 =>
            rw [hr] at h
            simp at h
            subst h
            exact do_type_check_error_cls hr
        | ok w => rw [hr] at h; simp at h
      · simp only [hcr, if_false] at h
        simp at h

/-- Claim C9: every validation failure the library raises — from any checker
and from the call wrapper — is a `TypeCheckError`, and `TypeCheckError` is
declared as a subclass of the built-in `TypeError`, so an `except TypeError`
handler catches every validation failure. -/
theorem validation_failures_caught_by_TypeError :
    (∀ (c : Checker) (obj : Value) (e : PyError),
      runChecker c obj = .error e → pyExcCaught e .typeError = true) ∧
    (∀ {σ : Type} (fc : FuncCallTypeChecker)
      (f : List Value → List (String × Value) → σ → σ × Value)
      (args : List Value) (kwargs : List (String × Value)) (s : σ) (e : PyError),
      (FuncCallTypeChecker.call fc f args kwargs s).2 = .error e →
        pyExcCaught e .typeError = true) ∧
    ExcClass.isSubclassOf .typeCheckError .typeError = true := by
  refine ⟨?_, ?_, by decide⟩
  · intro c obj e h
    have := runChecker_error_cls h
    simp [pyExcCaught, this]
    decide
  · intro σ fc f args kwargs s e h
    have := call_error_cls h
    simp [pyExcCaught, this]
    decide

/-- Witness for C9: the failure of the int checker on `"x"` is caught by an
`except TypeError` handler. -/
theorem validation_failures_caught_witness :
    runChecker (.typeChecker (.cls "int")) (.strV "x") =
      .error (.mk .typeCheckError
        (raise_error_msg (.cls "int") (.strV "x") none) none) ∧
    pyExcCaught (.mk .typeCheckError
        (raise_error_msg (.cls "int") (.strV "x") none) none) .typeError = true :=
  ⟨by simp [runChecker_typeChecker, pyIsInstance, pyIsInstanceCls, Value.classOf,
      pyMro, raiseErrorExc],
   validation_failures_caught_by_TypeError.1 (.typeChecker (.cls "int")) (.strV "x")
     (.mk .typeCheckError (raise_error_msg (.cls "int") (.strV "x") none) none)
     (by simp [runChecker_typeChecker, pyIsInstance, pyIsInstanceCls, Value.classOf,
       pyMro, raiseErrorExc])⟩

/-- The slice `l[i:0]` is always empty: its stop bound is `0`, so no index
lies in `[start, 0)` (for `i = 0` Python reads `-0 == 0` and the slice
`l[0:0]` is empty as well). -/
theorem pySlice_to_zero {α : Type} (l : List α) (i : Int) : pySlice l i 0 = [] := by
  have h : (min (0 : Int) (l.length : Int)).toNat = 0 := by omega
  simp [pySlice, h]

theorem init_ok_arg_defaults_nil {st : RegState} {spec : ArgSpec} {ca cr : Bool}
    { fa : Bool} {st2 : RegState} {fc : FuncCallTypeChecker}
    (h : FuncCallTypeChecker.init st spec ca cr fa = .ok (st2, fc)) :
    fc.arg_defaults = [] := by
  simp only [FuncCallTypeChecker.init, pySlice_to_zero, List.zip_nil_left,
    checkDefaultsLoop] at h
  split at h
  · exact absurd h (by simp)
  · injection h with hpair
    injection hpair with ha hb
    subst hb
    rfl

/-- Claim C5 is contradicted by the code (code bug): the eager
positional-default validation iterates
`zip(argspec.args[-len(arg_defaults):0], arg_defaults)`, and the slice
`args[-n:0]` always denotes the empty list (its stop bound is `0`), so
`self._arg_defaults` is always empty and no positional default is ever
validated; constructing the binding for `def f(x: int = "x")` therefore
succeeds with nothing checked, where the claim requires a construction-time
failure. -/
theorem positional_default_check_is_dead :
    (∀ (spec : ArgSpec),
      (pySlice spec.args (-(((spec.defaults.getD []).length : Nat) : Int)) 0).zip
        (spec.defaults.getD []) = ([] : List (String × Value))) ∧
    (∀ (st : RegState) (spec : ArgSpec) (ca cr fa : Bool)
      (st2 : RegState) (fc : FuncCallTypeChecker),
      FuncCallTypeChecker.init st spec ca cr fa = .ok (st2, fc) →
        fc.arg_defaults = []) ∧
    FuncCallTypeChecker.init initState
      { args := ["x"], varargs := none, varkw := none, kwonlyargs := [],
        defaults := some [.strV "x"], kwonlydefaults := none,
        annotations := [("x", DescObj.cls 20 "int")] } true true false =
      .ok ({ cache := [(DescObj.cls 20 "int", 1, Checker.typeChecker (Shape.cls "int")),
               (DescObj.noneVal, 0, Checker.emptyTypeChecker)], nextId := 2 },
        { check_args := true, check_return := true,
          arg_checkers := [("x", Checker.typeChecker (Shape.cls "int"))],
          kw_checkers := [], varg_checker := Checker.emptyTypeChecker,
          vkw_checker := Checker.emptyTypeChecker,
          ret_checker := Checker.emptyTypeChecker,
          arg_defaults := [], kw_defaults := [] }) := by
  refine ⟨?_, ?_, ?_⟩
  · intro spec
    rw [pySlice_to_zero]
    rfl
  · intro st spec ca cr fa st2 fc h
    exact init_ok_arg_defaults_nil h
  · simp [FuncCallTypeChecker.init, create_checker_dict, create_checker, get_type_checker,
      create_type_checker, cacheLookup, cacheInsert, allocChecker, initState, assocLookup,
      DescObj.erase, Shape.beq, pySlice, checkDefaultsLoop, DescObj.eraseList]

/-- Witness for C5: the concrete binding for `def f(x: int = "x")` is
constructed successfully (no exception) and carries an empty
positional-defaults map, so its bad default was never validated. -/
theorem positional_default_check_is_dead_witness :
    FuncCallTypeChecker.init initState
      { args := ["x"], varargs := none, varkw := none, kwonlyargs := [],
        defaults := some [.strV "x"], kwonlydefaults := none,
        annotations := [("x", DescObj.cls 20 "int")] } true true false =
      .ok ({ cache := [(DescObj.cls 20 "int", 1, Checker.typeChecker (Shape.cls "int")),
               (DescObj.noneVal, 0, Checker.emptyTypeChecker)], nextId := 2 },
        { check_args := true, check_return := true,
          arg_checkers := [("x", Checker.typeChecker (Shape.cls "int"))],
          kw_checkers := [], varg_checker := Checker.emptyTypeChecker,
          vkw_checker := Checker.emptyTypeChecker,
          ret_checker := Checker.emptyTypeChecker,
          arg_defaults := [], kw_defaults := [] }) ∧
    ({ check_args := true, check_return := true,
       arg_checkers := [("x", Checker.typeChecker (Shape.cls "int"))],
       kw_checkers := [], varg_checker := Checker.emptyTypeChecker,
       vkw_checker := Checker.emptyTypeChecker,
       ret_checker := Checker.emptyTypeChecker,
       arg_defaults := [], kw_defaults := [] } : FuncCallTypeChecker).arg_defaults = [] :=
  ⟨positional_default_check_is_dead.2.2,
   positional_default_check_is_dead.2.1 _ _ _ _ _ _ _
     positional_default_check_is_dead.2.2⟩

theorem create_checker_fa_irrelevant (spec : ArgSpec) (fa1 fa2 : Bool)
    (st : RegState) (x : Option String) :
    create_checker spec fa1 st x = create_checker spec fa2 st x := rfl

theorem create_checker_dict_fa_irrelevant (spec : ArgSpec) (fa1 fa2 : Bool) :
    ∀ (l : List String) (st : RegState),
    create_checker_dict spec fa1 st l = create_checker_dict spec fa2 st l := by
  intro l
  induction l with
  | nil => intro st; rfl
  | cons n ns ih =>
      intro st
      simp only [create_checker_dict, create_checker_fa_irrelevant spec fa1 fa2, ih]

theorem init_fa_irrelevant (st : RegState) (spec : ArgSpec) (ca cr fa : Bool) :
    FuncCallTypeChecker.init st spec ca cr fa =
      FuncCallTypeChecker.init st spec ca cr false := by
  simp only [FuncCallTypeChecker.init,
    create_checker_dict_fa_irrelevant spec fa false,
    create_checker_fa_irrelevant spec fa false]

/-- Claim C6 is contradicted by the code (code bug): the forcing flag is
never enforced — `annotations.get(arg_name)` returns `None` rather than
raising `KeyError`, so the `except KeyError:` branch that would raise
`TypeError('... must be fully annotated.')` is dead code, construction is
entirely independent of the flag, and it succeeds for a wholly unannotated
callable even with forcing enabled, assigning the accept-all
`EmptyTypeChecker` to the unannotated parameter exactly as in the
forcing-disabled case (that half of the claim does hold). -/
theorem force_annotation_never_enforced :
    (∀ (st : RegState) (spec : ArgSpec) (ca cr fa : Bool),
      FuncCallTypeChecker.init st spec ca cr fa =
        FuncCallTypeChecker.init st spec ca cr false) ∧
    FuncCallTypeChecker.init initState
      { args := ["x"], varargs := none, varkw := none, kwonlyargs := [],
        defaults := none, kwonlydefaults := none, annotations := [] } true true true =
      .ok ({ cache := [(DescObj.noneVal, 0, Checker.emptyTypeChecker)], nextId := 1 },
        { check_args := true, check_return := true,
          arg_checkers := [("x", Checker.emptyTypeChecker)],
          kw_checkers := [], varg_checker := Checker.emptyTypeChecker,
          vkw_checker := Checker.emptyTypeChecker,
          ret_checker := Checker.emptyTypeChecker,
          arg_defaults := [], kw_defaults := [] }) ∧
    (∀ v, runChecker Checker.emptyTypeChecker v = .ok v) := by
  refine ⟨fun st spec ca cr fa => init_fa_irrelevant st spec ca cr fa, ?_, fun v => by
    simp [runChecker]⟩
  simp [FuncCallTypeChecker.init, create_checker_dict, create_checker, get_type_checker,
    create_type_checker, cacheLookup, cacheInsert, allocChecker, initState, assocLookup,
    DescObj.erase, Shape.beq, pySlice, checkDefaultsLoop, DescObj.eraseList]

/-- Claim C7: with argument checking enabled, a failing argument check
aborts the call with the state untouched — the wrapped callable never runs;
when all argument checks pass, the callable runs (the resulting state is
the callable's post-state), and a return-check failure is raised only after
that run, so the callable's side effects stand. -/
theorem call_aborts_before_func_or_after (σ : Type) (fc : FuncCallTypeChecker)
    (f : List Value → List (String × Value) → σ → σ × Value)
    (args : List Value) (kwargs : List (String × Value)) (s : σ)
    (hca : fc.check_args = true) :
    (∀ e, checkAllArgs fc args kwargs = .error e →
      FuncCallTypeChecker.call fc f args kwargs s = (s, .error e)) ∧
    (checkAllArgs fc args kwargs = .ok () →
      (FuncCallTypeChecker.call fc f args kwargs s).1 = (f args kwargs s).1 ∧
      (fc.check_return = true →
        ∀ e, do_type_check fc.ret_checker (f args kwargs s).2 retMsg = .error e →
          FuncCallTypeChecker.call fc f args kwargs s =
            ((f args kwargs s).1, .error e))) := by
  constructor
  · intro e he
    rw [FuncCallTypeChecker.call]
    simp [hca, he]
  · intro hok
    constructor
    · rw [FuncCallTypeChecker.call]
      simp only [hca, if_true, hok]
      by_cases hcr : fc.check_return
      · simp only [hcr, if_true]
        cases hr : do_type_check fc.ret_checker (f args kwargs s).2 retMsg <;> simp
      · simp [hcr]
    · intro hcr e he
      rw [FuncCallTypeChecker.call]
      simp [hca, hok, hcr, he]

/-- Witness for C7 with the callable modelled as a counter increment
returning `None`: on a failing argument, the call aborts with the counter
still `0` (the callable never ran); on a passing argument, the callable
runs (counter `1`) and only then does the return check fail. -/
theorem call_aborts_before_func_or_after_witness :
    FuncCallTypeChecker.call
      ({ check_args := true, check_return := true,
         arg_checkers := [("a", Checker.typeChecker (Shape.cls "int"))],
         kw_checkers := [], varg_checker := Checker.emptyTypeChecker,
         vkw_checker := Checker.emptyTypeChecker,
         ret_checker := Checker.typeChecker (Shape.cls "int"),
         arg_defaults := [], kw_defaults := [] } : FuncCallTypeChecker)
      (fun _ _ (n : Nat) => (n + 1, Value.noneV)) [.strV "x"] [] 0 =
      (0, .error (.mk .typeCheckError (posArgMsg "a")
        (some (.mk .typeCheckError
          (raise_error_msg (.cls "int") (.strV "x") none) none)))) ∧
    FuncCallTypeChecker.call
      ({ check_args := true, check_return := true,
         arg_checkers := [("a", Checker.typeChecker (Shape.cls "int"))],
         kw_checkers := [], varg_checker := Checker.emptyTypeChecker,
         vkw_checker := Checker.emptyTypeChecker,
         ret_checker := Checker.typeChecker (Shape.cls "int"),
         arg_defaults := [], kw_defaults := [] } : FuncCallTypeChecker)
      (fun _ _ (n : Nat) => (n + 1, Value.noneV)) [.intV 7] [] 0 =
      (1, .error (.mk .typeCheckError retMsg
        (some (.mk .typeCheckError
          (raise_error_msg (.cls "int") .noneV none) none)))) :=
  ⟨(call_aborts_before_func_or_after Nat _ _ [.strV "x"] [] 0 rfl).1 _
     (by simp [checkAllArgs, checkArgsAgainst, checkKwArgs, checkVarArgs, do_type_check,
       runChecker, pyIsInstance, pyIsInstanceCls, Value.classOf, pyMro, raiseErrorExc]),
   (((call_aborts_before_func_or_after Nat _ _ [.intV 7] [] 0 rfl).2
     (by simp [checkAllArgs, checkArgsAgainst, checkKwArgs, checkVarArgs, do_type_check,
       runChecker, pyIsInstance, pyIsInstanceCls, Value.classOf, pyMro])).2 rfl _
     (by simp [do_type_check, runChecker, pyIsInstance, pyIsInstanceCls, Value.classOf,
       pyMro, raiseErrorExc]))⟩

theorem descObj_sizeOf_pos (d : DescObj) : 0 < sizeOf d := by
  cases d <;> simp

theorem initState_cacheOK : CacheOK initState.cache := by
  intro p hp
  simp [initState] at hp

theorem cacheInsert_mem {c : List (DescObj × Nat × Checker)} {d : DescObj} {v : Nat}
    {k : Checker} {q : DescObj × Nat × Checker} (hq : q ∈ cacheInsert c d v k) :
    q ∈ c ∨ (q.1.erase = d.erase ∧ q.2 = (v, k)) := by
  induction c with
  | nil =>
      simp [cacheInsert] at hq
      subst hq
      exact Or.inr ⟨rfl, rfl⟩
  | cons kv rest ih =>
      obtain ⟨k0, v0, c0⟩ := kv
      by_cases hk : Shape.beq k0.erase d.erase = true
      · rw [cacheInsert, if_pos hk] at hq
        rcases List.mem_cons.mp hq with h | h
        · subst h
          exact Or.inr ⟨(Shape.beq_iff _ _).1 hk, rfl⟩
        · exact Or.inl (List.mem_cons_of_mem _ h)
      · rw [cacheInsert, if_neg hk] at hq
        rcases List.mem_cons.mp hq with h | h
        · subst h
          exact Or.inl (List.mem_cons_self _ _)
        · rcases ih h with h2 | h2
          · exact Or.inl (List.mem_cons_of_mem _ h2)
          · exact Or.inr h2

theorem cacheLookup_mem {c : List (DescObj × Nat × Checker)} {d : DescObj}
    {v : Nat} {k : Checker} (h : cacheLookup c d = some (v, k)) :
    ∃ k0, (k0, v, k) ∈ c ∧ k0.erase = d.erase := by
  induction c with
  | nil => simp [cacheLookup] at h
  | cons kv rest ih =>
      obtain ⟨k0, v0, c0⟩ := kv
      by_cases hk : Shape.beq k0.erase d.erase = true
      · rw [cacheLookup, if_pos hk] at h
        injection h with h2
        injection h2 with ha hb
        subst ha
        subst hb
        exact ⟨k0, List.mem_cons_self _ _, (Shape.beq_iff _ _).1 hk⟩
      · rw [cacheLookup, if_neg hk] at h
        obtain ⟨k1, hm, he⟩ := ih h
        exact ⟨k1, List.mem_cons_of_mem _ hm, he⟩

theorem cacheOK_getList_aux {n : Nat}
    (IH : ∀ d, sizeOf d ≤ n → ∀ st : RegState, CacheOK st.cache →
      CacheOK (get_type_checker st d).1.cache) :
    ∀ (l : List DescObj), (∀ a ∈ l, sizeOf a ≤ n) →
      ∀ st : RegState, CacheOK st.cache → CacheOK (get_checker_list st l).1.cache := by
  intro l
  induction l with
  | nil => intro _ st hok; simpa [get_checker_list] using hok
  | cons a as ih =>
      intro hmem st hok
      simp only [get_checker_list]
      exact ih (fun x hx => hmem x (by simp [hx])) _ (IH a (hmem a (by simp)) st hok)

theorem cacheOK_get_aux :
    ∀ (n : Nat) (d : DescObj), sizeOf d ≤ n → ∀ st : RegState, CacheOK st.cache →
      CacheOK (get_type_checker st d).1.cache ∧
      (markerShape d.erase = true →
        (get_type_checker st d).2 = (0, Checker.emptyTypeChecker)) := by
  intro n
  induction n with
  | zero =>
      intro d hd
      exact absurd hd (by have := descObj_sizeOf_pos d; omega)
  | succ n ih =>
      intro d hd st hok
      have IH1 : ∀ d2, sizeOf d2 ≤ n → ∀ st2 : RegState, CacheOK st2.cache →
          CacheOK (get_type_checker st2 d2).1.cache :=
        fun d2 h2 st2 hok2 => (ih d2 h2 st2 hok2).1
      have hcreate : CacheOK (create_type_checker st d).1.cache ∧
          (markerShape d.erase = true →
            (create_type_checker st d).2 = (0, Checker.emptyTypeChecker)) := by
        cases d with
        | cls oid nm =>
            refine ⟨by simpa [create_type_checker, allocChecker] using hok, ?_⟩
            intro hm
            simp [DescObj.erase, markerShape] at hm
        | variadicAlias oid o =>
            refine ⟨by simpa [create_type_checker, allocChecker] using hok, ?_⟩
            intro hm
            simp [DescObj.erase, markerShape] at hm
        | tupleAlias oid args =>
            refine ⟨?_, ?_⟩
            · have hl : CacheOK (get_checker_list st args).1.cache :=
                cacheOK_getList_aux IH1 args (fun a ha => by
                  have h1 : sizeOf a < sizeOf args := List.sizeOf_lt_of_mem ha
                  have h2 : sizeOf (DescObj.tupleAlias oid args) =
                      1 + sizeOf oid + sizeOf args := by simp
                  omega) st hok
              simpa [create_type_checker, allocChecker] using hl
            · intro hm
              simp [DescObj.erase, markerShape] at hm
        | listAlias oid a =>
            have hsz : sizeOf a ≤ n := by
              have h2 : sizeOf (DescObj.listAlias oid a) = 1 + sizeOf oid + sizeOf a := by
                simp
              omega
            refine ⟨?_, ?_⟩
            · have h1 := (ih a hsz st hok).1
              simpa [create_type_checker, allocChecker] using h1
            · intro hm
              simp [DescObj.erase, markerShape] at hm
        | dictAlias oid k v =>
            have h2 : sizeOf (DescObj.dictAlias oid k v) =
                1 + sizeOf oid + sizeOf k + sizeOf v := by simp
            have hk : sizeOf k ≤ n := by omega
            have hv : sizeOf v ≤ n := by omega
            refine ⟨?_, ?_⟩
            · have hk1 := (ih k hk st hok).1
              have hv1 := (ih v hv _ hk1).1
              simpa [create_type_checker, allocChecker] using hv1
            · intro hm
              simp [DescObj.erase, markerShape] at hm
        | setAlias oid a =>
            have hsz : sizeOf a ≤ n := by
              have h2 : sizeOf (DescObj.setAlias oid a) = 1 + sizeOf oid + sizeOf a := by
                simp
              omega
            refine ⟨?_, ?_⟩
            · have h1 := (ih a hsz st hok).1
              simpa [create_type_checker, allocChecker] using h1
            · intro hm
              simp [DescObj.erase, markerShape] at hm
        | anyMarker =>
            exact ⟨by simpa [create_type_checker] using hok,
              fun _ => by simp [create_type_checker]⟩
        | noReturnMarker =>
            exact ⟨by simpa [create_type_checker] using hok,
              fun _ => by simp [create_type_checker]⟩
        | noneVal =>
            exact ⟨by simpa [create_type_checker] using hok,
              fun _ => by simp [create_type_checker]⟩
      cases hlk : cacheLookup st.cache d with
      | some p =>
          obtain ⟨vid, ck⟩ := p
          rw [get_type_checker_hit hlk]
          refine ⟨hok, ?_⟩
          intro hm
          obtain ⟨k0, hmem, he⟩ := cacheLookup_mem hlk
          have hq := hok _ hmem (by rw [he]; exact hm)
          simpa using hq
      | none =>
          simp only [get_type_checker, hlk]
          refine ⟨?_, ?_⟩
          · intro q hq hm
            rcases cacheInsert_mem hq with h | ⟨he, hv⟩
            · exact hcreate.1 _ h hm
            · have hdm : markerShape d.erase = true := by rw [← he]; exact hm
              rw [hv, hcreate.2 hdm]
          · intro hm
            rw [hcreate.2 hm]

theorem cacheOK_get (d : DescObj) (st : RegState) (hok : CacheOK st.cache) :
    CacheOK (get_type_checker st d).1.cache ∧
    (markerShape d.erase = true →
      (get_type_checker st d).2 = (0, Checker.emptyTypeChecker)) :=
  cacheOK_get_aux (sizeOf d) d le_rfl st hok

theorem cacheOK_create_checker (spec : ArgSpec) (fa : Bool) (st : RegState)
    (x : Option String) (hok : CacheOK st.cache) :
    CacheOK (create_checker spec fa st x).1.cache := by
  simp only [create_checker]
  exact (cacheOK_get _ _ hok).1

theorem create_checker_none_empty (spec : ArgSpec) (fa : Bool) (st : RegState)
    (hok : CacheOK st.cache) :
    (create_checker spec fa st none).2 = (0, Checker.emptyTypeChecker) := by
  simp only [create_checker]
  exact (cacheOK_get DescObj.noneVal st hok).2 (by simp [DescObj.erase, markerShape])

theorem cacheOK_create_checker_dict (spec : ArgSpec) (fa : Bool) :
    ∀ (l : List String) (st : RegState), CacheOK st.cache →
      CacheOK (create_checker_dict spec fa st l).1.cache := by
  intro l
  induction l with
  | nil => intro st hok; simpa [create_checker_dict] using hok
  | cons nm ns ih =>
      intro st hok
      simp only [create_checker_dict]
      exact ih _ (cacheOK_create_checker spec fa st (some nm) hok)

theorem init_ok_vkw_empty {st : RegState} {spec : ArgSpec} {ca cr fa : Bool}
    {st2 : RegState} {fc : FuncCallTypeChecker}
    (hok : CacheOK st.cache) (hwk : spec.varkw = none)
    (h : FuncCallTypeChecker.init st spec ca cr fa = .ok (st2, fc)) :
    fc.vkw_checker = Checker.emptyTypeChecker := by
  simp only [FuncCallTypeChecker.init] at h
  rw [hwk] at h
  have h1 := cacheOK_create_checker_dict spec fa spec.args st hok
  have h2 := cacheOK_create_checker_dict spec fa spec.kwonlyargs _ h1
  have h3 := cacheOK_create_checker spec fa _ spec.varargs h2
  have h4 := create_checker_none_empty spec fa _ h3
  split at h
  · exact absurd h (by simp)
  · split at h
    · exact absurd h (by simp)
    · injection h with hpair
      injection hpair with ha hb
      subst hb
      show (create_checker spec fa _ none).2.2 = Checker.emptyTypeChecker
      rw [h4]

/-- Claim C8: at invocation, the checker for a keyword argument is resolved
against positional-parameter names first, then keyword-only names, then the
`**kwargs` checker; and when the callable declares no `**kwargs` parameter,
that fallback is the accept-all `EmptyTypeChecker` (the registry's result
for the absent annotation), so such extra keyword arguments pass
unchecked. -/
theorem kwarg_checker_resolution (fc : FuncCallTypeChecker) (name : String) :
    (∀ ck, assocLookup fc.arg_checkers name = some ck →
      fc.resolveKwChecker name = ck) ∧
    (∀ ck, assocLookup fc.arg_checkers name = none →
      assocLookup fc.kw_checkers name = some ck →
      fc.resolveKwChecker name = ck) ∧
    (assocLookup fc.arg_checkers name = none →
      assocLookup fc.kw_checkers name = none →
      fc.resolveKwChecker name = fc.vkw_checker) ∧
    (∀ (st : RegState) (spec : ArgSpec) (ca cr fa : Bool) (st2 : RegState)
      (fc2 : FuncCallTypeChecker), CacheOK st.cache → spec.varkw = none →
      FuncCallTypeChecker.init st spec ca cr fa = .ok (st2, fc2) →
      fc2.vkw_checker = Checker.emptyTypeChecker ∧
      ∀ v, runChecker fc2.vkw_checker v = .ok v) := by
  refine ⟨?_, ?_, ?_, ?_⟩
  · intro ck h
    simp [FuncCallTypeChecker.resolveKwChecker, h]
  · intro ck h1 h2
    simp [FuncCallTypeChecker.resolveKwChecker, h1, h2]
  · intro h1 h2
    simp [FuncCallTypeChecker.resolveKwChecker, h1, h2]
  · intro st spec ca cr fa st2 fc2 hok hwk h
    have hv := init_ok_vkw_empty hok hwk h
    exact ⟨hv, fun v => by rw [hv]; simp [runChecker]⟩

/-- Witness for C8 on the binding of `def f(a: int, *, k: str)` (no
`**kwargs`): keyword `a` resolves to the positional checker, `k` to the
keyword-only checker, an unknown `z` to the `**kwargs` fallback, which is
the accept-all checker and passes an arbitrary value. -/
theorem kwarg_checker_resolution_witness :
    FuncCallTypeChecker.resolveKwChecker
      { check_args := true, check_return := true,
        arg_checkers := [("a", Checker.typeChecker (Shape.cls "int"))],
        kw_checkers := [("k", Checker.typeChecker (Shape.cls "str"))],
        varg_checker := Checker.emptyTypeChecker,
        vkw_checker := Checker.emptyTypeChecker,
        ret_checker := Checker.emptyTypeChecker,
        arg_defaults := [], kw_defaults := [] } "a" =
      Checker.typeChecker (Shape.cls "int") ∧
    FuncCallTypeChecker.resolveKwChecker
      { check_args := true, check_return := true,
        arg_checkers := [("a", Checker.typeChecker (Shape.cls "int"))],
        kw_checkers := [("k", Checker.typeChecker (Shape.cls "str"))],
        varg_checker := Checker.emptyTypeChecker,
        vkw_checker := Checker.emptyTypeChecker,
        ret_checker := Checker.emptyTypeChecker,
        arg_defaults := [], kw_defaults := [] } "k" =
      Checker.typeChecker (Shape.cls "str") ∧
    FuncCallTypeChecker.resolveKwChecker
      { check_args := true, check_return := true,
        arg_checkers := [("a", Checker.typeChecker (Shape.cls "int"))],
        kw_checkers := [("k", Checker.typeChecker (Shape.cls "str"))],
        varg_checker := Checker.emptyTypeChecker,
        vkw_checker := Checker.emptyTypeChecker,
        ret_checker := Checker.emptyTypeChecker,
        arg_defaults := [], kw_defaults := [] } "z" =
      Checker.emptyTypeChecker ∧
    ({ check_args := true, check_return := true,
       arg_checkers := [("a", Checker.typeChecker (Shape.cls "int"))],
       kw_checkers := [("k", Checker.typeChecker (Shape.cls "str"))],
       varg_checker := Checker.emptyTypeChecker,
       vkw_checker := Checker.emptyTypeChecker,
       ret_checker := Checker.emptyTypeChecker,
       arg_defaults := [], kw_defaults := [] } : FuncCallTypeChecker).vkw_checker =
      Checker.emptyTypeChecker ∧
    runChecker Checker.emptyTypeChecker (.dictV []) = .ok (.dictV []) :=
  ⟨(kwarg_checker_resolution _ "a").1 _ (by simp [assocLookup]),
   (kwarg_checker_resolution _ "k").2.1 _ (by simp [assocLookup]) (by simp [assocLookup]),
   (kwarg_checker_resolution _ "z").2.2.1 (by simp [assocLookup]) (by simp [assocLookup]),
   ((kwarg_checker_resolution
       { check_args := true, check_return := true,
         arg_checkers := [("a", Checker.typeChecker (Shape.cls "int"))],
         kw_checkers := [("k", Checker.typeChecker (Shape.cls "str"))],
         varg_checker := Checker.emptyTypeChecker,
         vkw_checker := Checker.emptyTypeChecker,
         ret_checker := Checker.emptyTypeChecker,
         arg_defaults := [], kw_defaults := [] } "z").2.2.2 initState
     { args := ["a"], varargs := none, varkw := none, kwonlyargs := ["k"],
       defaults := none, kwonlydefaults := none,
       annotations := [("a", DescObj.cls 30 "int"), ("k", DescObj.cls 31 "str")] }
     true true false
     ({ cache := [(DescObj.cls 30 "int", 1, Checker.typeChecker (Shape.cls "int")),
          (DescObj.cls 31 "str", 2, Checker.typeChecker (Shape.cls "str")),
          (DescObj.noneVal, 0, Checker.emptyTypeChecker)], nextId := 3 })
     { check_args := true, check_return := true,
       arg_checkers := [("a", Checker.typeChecker (Shape.cls "int"))],
       kw_checkers := [("k", Checker.typeChecker (Shape.cls "str"))],
       varg_checker := Checker.emptyTypeChecker,
       vkw_checker := Checker.emptyTypeChecker,
       ret_checker := Checker.emptyTypeChecker,
       arg_defaults := [], kw_defaults := [] }
     initState_cacheOK rfl
     (by simp [FuncCallTypeChecker.init, create_checker_dict, create_checker,
       get_type_checker, create_type_checker, cacheLookup, cacheInsert, allocChecker,
       initState, assocLookup, DescObj.erase, Shape.beq, pySlice, checkDefaultsLoop,
       DescObj.eraseList])).1,
   ((kwarg_checker_resolution
       { check_args := true, check_return := true,
         arg_checkers := [("a", Checker.typeChecker (Shape.cls "int"))],
         kw_checkers := [("k", Checker.typeChecker (Shape.cls "str"))],
         varg_checker := Checker.emptyTypeChecker,
         vkw_checker := Checker.emptyTypeChecker,
         ret_checker := Checker.emptyTypeChecker,
         arg_defaults := [], kw_defaults := [] } "z").2.2.2 initState
     { args := ["a"], varargs := none, varkw := none, kwonlyargs := ["k"],
       defaults := none, kwonlydefaults := none,
       annotations := [("a", DescObj.cls 30 "int"), ("k", DescObj.cls 31 "str")] }
     true true false
     ({ cache := [(DescObj.cls 30 "int", 1, Checker.typeChecker (Shape.cls "int")),
          (DescObj.cls 31 "str", 2, Checker.typeChecker (Shape.cls "str")),
          (DescObj.noneVal, 0, Checker.emptyTypeChecker)], nextId := 3 })
     { check_args := true, check_return := true,
       arg_checkers := [("a", Checker.typeChecker (Shape.cls "int"))],
       kw_checkers := [("k", Checker.typeChecker (Shape.cls "str"))],
       varg_checker := Checker.emptyTypeChecker,
       vkw_checker := Checker.emptyTypeChecker,
       ret_checker := Checker.emptyTypeChecker,
       arg_defaults := [], kw_defaults := [] }
     initState_cacheOK rfl
     (by simp [FuncCallTypeChecker.init, create_checker_dict, create_checker,
       get_type_checker, create_type_checker, cacheLookup, cacheInsert, allocChecker,
       initState, assocLookup, DescObj.erase, Shape.beq, pySlice, checkDefaultsLoop,
       DescObj.eraseList])).2 (.dictV [])⟩
